import Mathlib

/-! # JALoP stress-test publisher: header codec, session store, message builders

A shallow embedding of `src/jnl_publisher/stress_test_publisher.c`.

Conventions of the embedding.

* `std::string` is a Lean `String`; the separator `:` and the six whitespace
  characters of the classic locale are ASCII, so splitting and trimming agree
  on bytes and on code points.
* The three record-type constants `AUDIT`, `JOURNAL`, `LOG` are the only
  strings the program ever passes as `recordType` (see `main` and
  `sendJalRecords`); for any other string `getSessionIdByRecordType` leaves
  the function without a return value.  The record type is therefore the
  three-valued type `RecordType`, and `RecordType.str` gives back the string.
* The global `std::unordered_map<std::string, std::string> headerMap` is a
  finite partial function `String → Option String`.
* libcurl, the file system and the receiver are an environment `Env`: an
  oracle that, for the `n`-th call of `performHttpPost`, says whether the
  payload file can be opened and measured and what `curl_easy_perform` does
  with the request (its result code and the response header lines it hands
  to `header_callback`).  The handle returned by `curl_easy_init` is taken
  to be non-null, so the `if(curl)` branch is the one that runs.
* `State.sent` is a ghost trace: the requests that reached
  `curl_easy_perform`, oldest first.  Output on stdout and stderr is not
  modelled.
-/

namespace Jalop

/-! ## Strings: `boost::split` on `:` and `boost::algorithm::trim` -/

/-- Classic-locale `std::isspace`: space, `\t`, `\n`, `\v`, `\f`, `\r`. -/
def isSpace (c : Char) : Bool :=
  c = ' ' || c = '\t' || c = '\n' || c = Char.ofNat 11 || c = Char.ofNat 12 || c = '\r'

/-- The tokens `boost::split(result, input, boost::is_any_of(":"))` produces, on
characters: every colon ends a token (adjacent separators are not merged), so
an input with `n` colons gives `n + 1` tokens. -/
def splitChars : List Char → List (List Char)
  | [] => [[]]
  | c :: cs =>
    if c = ':' then [] :: splitChars cs
    else
      match splitChars cs with
      | [] => [[c]]
      | t :: ts => (c :: t) :: ts

/-- The call `boost::split(result, input, boost::is_any_of(":"))` on strings. -/
def split (input : String) : List String :=
  (splitChars input.data).map String.mk

/-- The effect of `boost::algorithm::trim` on characters: leading and trailing
whitespace is removed. -/
def trimChars (l : List Char) : List Char :=
  ((l.dropWhile isSpace).reverse.dropWhile isSpace).reverse

/-- The call `boost::algorithm::trim(s)`. -/
def trim (s : String) : String :=
  String.mk (trimChars s.data)

/-! ## The response-header map -/

/-- The global `headerMap`. -/
abbrev HeaderMap := String → Option String

/-- The map before any header has been received. -/
def HeaderMap.empty : HeaderMap := fun _ => none

/-- The assignment `headerMap[k] = v`: inserts or overwrites. -/
def HeaderMap.assign (m : HeaderMap) (k v : String) : HeaderMap :=
  fun x => if x = k then some v else m x

/-- The test `headerMap.find(k) != headerMap.end()`. -/
def HeaderMap.found (m : HeaderMap) (k : String) : Bool :=
  (m k).isSome

/-- The read `headerMap[k]`: gives the stored value; for a missing key it
inserts the empty string and gives that. -/
def HeaderMap.index (m : HeaderMap) (k : String) : String × HeaderMap :=
  match m k with
  | some v => (v, m)
  | none => ("", m.assign k "")

/-- The function `header_callback`, on the string `input` built from the
buffer: the line is split on every colon, and only a line that gives exactly
two parts is recorded, both parts trimmed. -/
def header_callback (input : String) (headerMap : HeaderMap) : HeaderMap :=
  match split input with
  | [headerKey, headerValue] => headerMap.assign (trim headerKey) (trim headerValue)
  | _ => headerMap

/-! ## Record types and the session store -/

/-- The constant `AUDIT`. -/
def AUDIT : String := "audit"
/-- The constant `JOURNAL`. -/
def JOURNAL : String := "journal"
/-- The constant `LOG`. -/
def LOG : String := "log"

/-- The three record types the program uses. -/
inductive RecordType where
  | audit
  | journal
  | log
  deriving DecidableEq, Repr

/-- The string passed as `recordType`. -/
def RecordType.str : RecordType → String
  | .audit => AUDIT
  | .journal => JOURNAL
  | .log => LOG

/-- One request handed to `curl_easy_perform`. -/
structure Request where
  url : String
  headers : List String
  sendBinaryData : Bool
  filename : String
  deriving DecidableEq, Repr

/-- What `curl_easy_perform` does with a request: whether it returns
`CURLE_OK`, and the header lines it passes to `header_callback`, in order. -/
structure Response where
  ok : Bool
  headerLines : List String
  deriving DecidableEq, Repr

/-- The world outside the program, indexed by the number of earlier calls of
`performHttpPost`. -/
structure Env where
  fopenOk : Nat → String → Bool
  fstatOk : Nat → String → Bool
  perform : Nat → Request → Response

/-- The globals of the program, with the ghost trace `sent` and the ghost
counter `calls` of `performHttpPost` invocations. -/
structure State where
  headerMap : HeaderMap
  auditSessionId : String
  journalSessionId : String
  logSessionId : String
  sent : List Request
  calls : Nat

/-- The globals at program start: empty map, empty session ids. -/
def State.init : State :=
  { headerMap := HeaderMap.empty, auditSessionId := "", journalSessionId := "",
    logSessionId := "", sent := [], calls := 0 }

/-- The function `getSessionIdByRecordType`. -/
def getSessionIdByRecordType (st : State) : RecordType → String
  | .audit => st.auditSessionId
  | .journal => st.journalSessionId
  | .log => st.logSessionId

/-- The function `setSessionIdByRecordType`. -/
def setSessionIdByRecordType (sessionId : String) (recordType : RecordType) (st : State) : State :=
  match recordType with
  | .audit => { st with auditSessionId := sessionId }
  | .journal => { st with journalSessionId := sessionId }
  | .log => { st with logSessionId := sessionId }

/-! ## Message builders -/

/-- The function `getInitializeHeaders`. -/
def getInitializeHeaders (recordType : RecordType) : List String :=
  [ "Content-Type: application/http+jalop",
    "Transfer-Encoding: binary",
    "JAL-Message: initialize",
    "JAL-Mode: archival",
    "JAL-Publisher-Id: ae8a54d7-dd7c-4c50-a7e7-f948a140c556",
    "JAL-Accept-Digest: junk digest,http://www.w3.org/2001/04/xmlenc#sha256",
    "JAL-Accept-XML-Compression: junk compression, none",
    "JAL-Record-Type: " ++ recordType.str,
    "JAL-Version: 2.0.0.0",
    "JAL-Accept-Configure-Digest-Challenge: on" ]

/-- The function `getCloseSessionHeaders`. -/
def getCloseSessionHeaders (st : State) (recordType : RecordType) : List String :=
  [ "JAL-Message: close-session",
    "JAL-Session-Id: " ++ getSessionIdByRecordType st recordType ]

/-- The function `getJALRecordHeaders`. -/
def getJALRecordHeaders (st : State) (recordType : RecordType)
    (jalId sysMetadataLength appMetadataLength payloadLength : String) : List String :=
  [ "JAL-Session-Id: " ++ getSessionIdByRecordType st recordType,
    "Content-Type: application/http+jalop",
    "Transfer-Encoding: binary" ]
  ++ (if recordType.str = AUDIT then ["JAL-Audit-Format: xml"] else [])
  ++ [ "JAL-Id: " ++ jalId,
       "JAL-System-Metadata-Length: " ++ sysMetadataLength,
       "JAL-Application-Metadata-Length: " ++ appMetadataLength,
       (if AUDIT = recordType.str then "JAL-Audit-Length: "
        else if JOURNAL = recordType.str then "JAL-Journal-Length: "
        else "JAL-Log-Length: ") ++ payloadLength,
       "JAL-Message: " ++ recordType.str ++ "-record" ]

/-- The function `getDigestResponseHeaders`. -/
def getDigestResponseHeaders (st : State) (jalId : String) (recordType : RecordType) :
    List String :=
  [ "Content-Type: application/http+jalop",
    "Transfer-Encoding: binary",
    "JAL-Message: digest-response",
    "JAL-Id: " ++ jalId,
    "JAL-Digest-Status: confirmed",
    "JAL-Session-Id: " ++ getSessionIdByRecordType st recordType ]

/-- The name of a request header: the text before its first colon. -/
def headerName (header : String) : String :=
  String.mk (header.data.takeWhile fun c => c != ':')

/-! ## Exchanges -/

/-- The function `performHttpPost`.  With `sendBinaryData` set, a payload file
that cannot be opened or measured makes the function `return 1` (that is,
`true`) before anything is sent.  Otherwise the request goes to
`curl_easy_perform`, which hands every response header line to
`header_callback`; the result is whether libcurl reported `CURLE_OK`.  The
global `headerMap` is not reset anywhere in the function. -/
def performHttpPost (env : Env) (headers : List String) (sendBinaryData : Bool)
    (recordType : RecordType) (filename : String) (st : State) : Bool × State :=
  let n := st.calls
  let st := { st with calls := n + 1 }
  if sendBinaryData && !env.fopenOk n filename then (true, st)
  else if sendBinaryData && !env.fstatOk n filename then (true, st)
  else
    let req : Request :=
      { url := "http://localhost:8080/" ++ recordType.str, headers := headers,
        sendBinaryData := sendBinaryData, filename := filename }
    let res := env.perform n req
    (res.ok,
     { st with
        headerMap := res.headerLines.foldl (fun m line => header_callback line m) st.headerMap,
        sent := st.sent ++ [req] })

/-- The function `processJALRecordResponse`. -/
def processJALRecordResponse (env : Env) (recordType : RecordType) (jalId : String)
    (st : State) : Bool × State :=
  if st.headerMap.found "JAL-Message" then
    performHttpPost env (getDigestResponseHeaders st jalId recordType) false recordType "" st
  else
    (false, st)

/-- The record id `sendJalRecords` sends. -/
def fixedJalId : String :=
  "2ef4e71c-5971-4349-9169-d1e8a2e9450b_2013-11-22T16:09:46.43660-05:00_20705_3167946496"

/-- The function `sendJalRecords`.  It returns `false` when the post fails;
after `processJALRecordResponse` control reaches the end of the function
without a `return`, so no value is given back (`none`). -/
def sendJalRecords (env : Env) (recordType : RecordType) (st : State) : Option Bool × State :=
  let jalId := fixedJalId
  let rec1headers := getJALRecordHeaders st recordType jalId "3083" "1179" "1040"
  match performHttpPost env rec1headers true recordType "good_audit_input.txt" st with
  | (false, st1) => (some false, st1)
  | (true, st1) => (none, (processJALRecordResponse env recordType jalId st1).2)

/-- The function `processInitializeResponse`.  No caller exists in the
program: `main` does not call it. -/
def processInitializeResponse (env : Env) (recordType : RecordType) (st : State) :
    Option Bool × State :=
  if st.headerMap.found "JAL-Message" then
    let r := st.headerMap.index "JAL-Message"
    let st1 := { st with headerMap := r.2 }
    if r.1 = "initialize-ack" then sendJalRecords env recordType st1
    else (some false, st1)
  else
    (some false, st)

/-- One of the three initialize blocks of `main`: post the initialize
message (`none` stands for `exit(1)` after a failed post), then read
`headerMap["JAL-Session-Id"]` and store it for the record type. -/
def mainInitialize (env : Env) (currRecordType : RecordType) (st : State) : Option State :=
  match performHttpPost env (getInitializeHeaders currRecordType) false currRecordType "" st with
  | (false, _) => none
  | (true, st1) =>
    let r := st1.headerMap.index "JAL-Session-Id"
    some (setSessionIdByRecordType r.1 currRecordType { st1 with headerMap := r.2 })

/-- The part of `main` before the loop: journal, then audit, then log. -/
def mainInit (env : Env) (st : State) : Option State :=
  (mainInitialize env .journal st).bind fun st1 =>
  (mainInitialize env .audit st1).bind fun st2 =>
  mainInitialize env .log st2

/-- One pass through the body of the `while(1)` loop of `main`. -/
def mainLoopBody (env : Env) (st : State) : State :=
  (sendJalRecords env .log
    (sendJalRecords env .audit
      (sendJalRecords env .journal st).2).2).2

/-- The first `n` passes of the `while(1)` loop of `main`. -/
def mainLoop (env : Env) : Nat → State → State
  | 0, st => st
  | n + 1, st => mainLoop env n (mainLoopBody env st)

/-- The function `main`, observed after `n` passes of its loop; `none` when an
initialize post failed and the program exited. -/
def main (env : Env) (n : Nat) : Option State :=
  (mainInit env State.init).map (mainLoop env n)

/-- A run of record transfers, one `sendJalRecords` per listed record type. -/
def sendAll (env : Env) : List RecordType → State → State
  | [], st => st
  | c :: cs, st => sendAll env cs (sendJalRecords env c st).2

/-! ## Environments used in the examples -/

/-- An environment in which the payload file can always be read and the
`n`-th call of `performHttpPost` succeeds with the response header lines
`lines n`. -/
def Env.replying (lines : Nat → List String) : Env :=
  { fopenOk := fun _ _ => true,
    fstatOk := fun _ _ => true,
    perform := fun n _ => { ok := true, headerLines := lines n } }

/-- The receiver answers every request with a bare status line. -/
def quietEnv : Env :=
  Env.replying fun _ => ["HTTP/1.1 200 OK\r\n", "\r\n"]

/-- The receiver answers every request with `JAL-Message: initialize-nack`. -/
def nackEnv : Env :=
  Env.replying fun _ => ["HTTP/1.1 200 OK\r\n", "JAL-Message: initialize-nack\r\n", "\r\n"]

/-- The receiver acknowledges the first request with session id `S1`; every
later response carries `JAL-Message: initialize-nack` and no session id. -/
def staleEnv : Env :=
  Env.replying fun n =>
    if n = 0 then
      ["HTTP/1.1 200 OK\r\n", "JAL-Message: initialize-ack\r\n", "JAL-Session-Id: S1\r\n", "\r\n"]
    else
      ["HTTP/1.1 200 OK\r\n", "JAL-Message: initialize-nack\r\n", "\r\n"]

/-- The receiver answers every request with `JAL-Message: initialize-nack`
and a `JAL-Session-Id` header. -/
def nackIdEnv : Env :=
  Env.replying fun _ =>
    ["HTTP/1.1 200 OK\r\n", "JAL-Message: initialize-nack\r\n", "JAL-Session-Id: S9\r\n", "\r\n"]

theorem splitChars_ne_nil (l : List Char) : splitChars l ≠ [] := by
  cases l with
  | nil => simp [splitChars]
  | cons c cs =>
    unfold splitChars
    split
    · simp
    · split <;> simp

theorem splitChars_length (l : List Char) : (splitChars l).length = l.count ':' + 1 := by
  induction l with
  | nil => simp [splitChars]
  | cons c cs ih =>
    unfold splitChars
    by_cases hc : c = ':'
    · subst hc
      simp [ih]
    · have hc2 : ¬ (c == ':') = true := by simpa using hc
      rw [if_neg hc, List.count_cons, if_neg hc2]
      cases hs : splitChars cs with
      | nil => exact absurd hs (splitChars_ne_nil cs)
      | cons t ts =>
        rw [hs] at ih
        simpa using ih

theorem splitChars_of_not_mem {l : List Char} (h : ':' ∉ l) : splitChars l = [l] := by
  induction l with
  | nil => simp [splitChars]
  | cons c cs ih =>
    have hc : c ≠ ':' := fun e => h (by simp [e])
    have hcs : ':' ∉ cs := fun e => h (by simp [e])
    unfold splitChars
    rw [if_neg hc, ih hcs]

theorem splitChars_append_colon {k : List Char} (v : List Char) (h : ':' ∉ k) :
    splitChars (k ++ ':' :: v) = k :: splitChars v := by
  induction k with
  | nil => simp [splitChars]
  | cons c cs ih =>
    have hc : c ≠ ':' := fun e => h (by simp [e])
    have hcs : ':' ∉ cs := fun e => h (by simp [e])
    have e : splitChars (c :: (cs ++ ':' :: v))
        = match splitChars (cs ++ ':' :: v) with
          | [] => [[c]]
          | t :: ts => (c :: t) :: ts := by
      simp only [splitChars, if_neg hc]
    rw [List.cons_append, e, ih hcs]

theorem split_length (input : String) : (split input).length = input.data.count ':' + 1 := by
  simp [split, splitChars_length]

theorem header_callback_of_count_ne_one (input : String) (m : HeaderMap)
    (h : input.data.count ':' ≠ 1) : header_callback input m = m := by
  unfold header_callback
  split
  · next k v hs =>
    have hl := split_length input
    rw [hs] at hl
    simp at hl
    omega
  · rfl

theorem header_callback_key_colon_value (key value : String) (m : HeaderMap)
    (hk : ':' ∉ key.data) (hv : ':' ∉ value.data) :
    header_callback (key ++ ":" ++ value) m = m.assign (trim key) (trim value) := by
  have hs : split (key ++ ":" ++ value) = [key, value] := by
    have hd : (key ++ ":" ++ value).data = key.data ++ ':' :: value.data := by
      simp [String.data_append]
    simp [split, hd, splitChars_append_colon _ hk, splitChars_of_not_mem hv]
  simp [header_callback, hs]

/-- The text `trimChars` returns is the input without a run of whitespace at
each end. -/
theorem trimChars_decomp (l : List Char) :
    l = l.takeWhile isSpace ++ trimChars l
          ++ ((l.dropWhile isSpace).reverse.takeWhile isSpace).reverse := by
  have h1 := List.takeWhile_append_dropWhile isSpace l
  have h2 := List.takeWhile_append_dropWhile isSpace (l.dropWhile isSpace).reverse
  have h3 : l.dropWhile isSpace
      = trimChars l ++ ((l.dropWhile isSpace).reverse.takeWhile isSpace).reverse := by
    have h4 := congrArg List.reverse h2
    rw [List.reverse_append, List.reverse_reverse] at h4
    exact h4.symm
  rw [List.append_assoc, ← h3, h1]

/-- The text `trimChars` returns neither begins nor ends with whitespace. -/
theorem trimChars_ends (l : List Char) (c : Char) :
    ((trimChars l).head? = some c → isSpace c = false) ∧
    ((trimChars l).getLast? = some c → isSpace c = false) := by
  constructor
  · intro hc
    have h2 := List.takeWhile_append_dropWhile isSpace (l.dropWhile isSpace).reverse
    have h4 := congrArg List.reverse h2
    rw [List.reverse_append, List.reverse_reverse] at h4
    have h5 : (l.dropWhile isSpace).head? = some c := by
      rw [← h4]
      change ((trimChars l) ++ _).head? = some c
      rw [List.head?_append, hc]
      rfl
    have h6 := List.head?_dropWhile_not isSpace l
    rw [h5] at h6
    simpa using h6
  · intro hc
    unfold trimChars at hc
    rw [List.getLast?_reverse] at hc
    have h6 := List.head?_dropWhile_not isSpace (l.dropWhile isSpace).reverse
    rw [hc] at h6
    simpa using h6

/-- A line with exactly one colon is a colon-free key, the colon, and a
colon-free value. -/
theorem exists_key_value_of_one_colon (input : String) (h : input.data.count ':' = 1) :
    ∃ key value : String,
      input = key ++ ":" ++ value ∧ ':' ∉ key.data ∧ ':' ∉ value.data := by
  have aux : ∀ l : List Char, l.count ':' = 1 →
      ∃ k v, l = k ++ ':' :: v ∧ ':' ∉ k ∧ ':' ∉ v := by
    intro l
    induction l with
    | nil => intro hl; simp at hl
    | cons c cs ih =>
      intro hl
      by_cases hc : c = ':'
      · subst hc
        have h0 : cs.count ':' = 0 := by simpa using hl
        exact ⟨[], cs, rfl, by simp, List.count_eq_zero.mp h0⟩
      · have hc2 : ¬ (c == ':') = true := by simpa using hc
        rw [List.count_cons, if_neg hc2] at hl
        obtain ⟨k, v, e, hk, hv⟩ := ih (by simpa using hl)
        refine ⟨c :: k, v, by rw [e]; rfl, ?_, hv⟩
        intro hm
        rcases List.mem_cons.mp hm with hm | hm
        · exact hc hm.symm
        · exact hk hm
  obtain ⟨k, v, e, hk, hv⟩ := aux input.data h
  refine ⟨String.mk k, String.mk v, ?_, hk, hv⟩
  apply String.ext
  simp only [String.data_append]
  rw [e]
  simp

theorem headerName_append (p x : String) (h : ':' ∈ p.data) :
    headerName (p ++ x) = headerName p := by
  unfold headerName
  congr 1
  rw [String.data_append, List.takeWhile_append]
  split
  · next hall =>
    exfalso
    have hlen := hall
    have hmem : ':' ∈ p.data.takeWhile fun c => c != ':' := by
      have e : (p.data.takeWhile fun c => c != ':') = p.data :=
        List.IsPrefix.eq_of_length (List.takeWhile_prefix _) hlen
      rw [e]; exact h
    have := List.mem_takeWhile_imp hmem
    simp at this
  · rfl

/-! ## Header codec (C1, C2) -/

/-- C1, as amended: a header line with two or more colons is not recorded at
all; `header_callback` leaves the response-header map exactly as it was,
because the line splits into three or more parts and only a two-part line is
stored. -/
theorem header_callback_multi_colon_ignored (input : String) (m : HeaderMap)
    (h : 2 ≤ input.data.count ':') : header_callback input m = m :=
  header_callback_of_count_ne_one input m (by omega)

theorem header_callback_multi_colon_ignored_witness :
    header_callback "X-Time: 2024-01-01T00:00:00" HeaderMap.empty = HeaderMap.empty :=
  header_callback_multi_colon_ignored "X-Time: 2024-01-01T00:00:00" HeaderMap.empty (by decide)

/-- C1 as stated fails: for the line `X-Time: 2024-01-01T00:00:00` the key
before the first colon is `X-Time` and the text after it, trimmed, is
`2024-01-01T00:00:00`, yet after `header_callback` the map has no entry for
`X-Time`. -/
theorem header_callback_first_colon_counterexample :
    trim "X-Time" = "X-Time" ∧ trim " 2024-01-01T00:00:00" = "2024-01-01T00:00:00" ∧
    header_callback ("X-Time" ++ ":" ++ " 2024-01-01T00:00:00") HeaderMap.empty "X-Time"
      ≠ some "2024-01-01T00:00:00" ∧
    header_callback "X-Time: 2024-01-01T00:00:00" HeaderMap.empty "X-Time" = none := by
  decide

/-- C2: a header line `key:value` with no further colon is stored as the pair
(`key` trimmed, `value` trimmed): the map afterwards is the old map with that
one assignment, so the trimmed key looks up the trimmed value and every other
key is as before.  A line without a colon leaves the map exactly as it was. -/
theorem header_callback_one_colon (key value line : String) (m : HeaderMap)
    (hk : ':' ∉ key.data) (hv : ':' ∉ value.data) (hl : ':' ∉ line.data) :
    header_callback (key ++ ":" ++ value) m = m.assign (trim key) (trim value) ∧
    header_callback (key ++ ":" ++ value) m (trim key) = some (trim value) ∧
    (∀ k, k ≠ trim key → header_callback (key ++ ":" ++ value) m k = m k) ∧
    header_callback line m = m := by
  have h1 := header_callback_key_colon_value key value m hk hv
  refine ⟨h1, ?_, ?_, ?_⟩
  · rw [h1]; simp [HeaderMap.assign]
  · intro k hne
    rw [h1]; simp [HeaderMap.assign, hne]
  · apply header_callback_of_count_ne_one
    rw [List.count_eq_zero_of_not_mem hl]
    decide

theorem header_callback_one_colon_witness :
    header_callback "JAL-Message: initialize-ack\r\n" HeaderMap.empty "JAL-Message"
      = some "initialize-ack" ∧
    header_callback "HTTP/1.1 200 OK\r\n" HeaderMap.empty = HeaderMap.empty := by
  have h := header_callback_one_colon "JAL-Message" " initialize-ack\r\n" "HTTP/1.1 200 OK\r\n"
    HeaderMap.empty (by decide) (by decide) (by decide)
  exact ⟨h.2.1, h.2.2.2⟩

/-! ## Message builders (C3, C9) -/

theorem getJALRecordHeaders_names (st : State) (c : RecordType)
    (jalId sysLen appLen payloadLen : String) :
    (getJALRecordHeaders st c jalId sysLen appLen payloadLen).map headerName
      = (match c with
        | .audit =>
          ["JAL-Session-Id", "Content-Type", "Transfer-Encoding", "JAL-Audit-Format", "JAL-Id",
           "JAL-System-Metadata-Length", "JAL-Application-Metadata-Length", "JAL-Audit-Length",
           "JAL-Message"]
        | .journal =>
          ["JAL-Session-Id", "Content-Type", "Transfer-Encoding", "JAL-Id",
           "JAL-System-Metadata-Length", "JAL-Application-Metadata-Length",
           "JAL-Journal-Length", "JAL-Message"]
        | .log =>
          ["JAL-Session-Id", "Content-Type", "Transfer-Encoding", "JAL-Id",
           "JAL-System-Metadata-Length", "JAL-Application-Metadata-Length", "JAL-Log-Length",
           "JAL-Message"]) := by
  have e1 : ∀ x, headerName ("JAL-Session-Id: " ++ x) = "JAL-Session-Id" := fun x => by
    rw [headerName_append _ _ (by decide)]; decide
  have e2 : ∀ x, headerName ("JAL-Id: " ++ x) = "JAL-Id" := fun x => by
    rw [headerName_append _ _ (by decide)]; decide
  have e3 : ∀ x, headerName ("JAL-System-Metadata-Length: " ++ x)
      = "JAL-System-Metadata-Length" := fun x => by
    rw [headerName_append _ _ (by decide)]; decide
  have e4 : ∀ x, headerName ("JAL-Application-Metadata-Length: " ++ x)
      = "JAL-Application-Metadata-Length" := fun x => by
    rw [headerName_append _ _ (by decide)]; decide
  have e5 : ∀ x, headerName ("JAL-Audit-Length: " ++ x) = "JAL-Audit-Length" := fun x => by
    rw [headerName_append _ _ (by decide)]; decide
  have e6 : ∀ x, headerName ("JAL-Journal-Length: " ++ x) = "JAL-Journal-Length" := fun x => by
    rw [headerName_append _ _ (by decide)]; decide
  have e7 : ∀ x, headerName ("JAL-Log-Length: " ++ x) = "JAL-Log-Length" := fun x => by
    rw [headerName_append _ _ (by decide)]; decide
  have e8 : headerName "JAL-Audit-Format: xml" = "JAL-Audit-Format" := by decide
  have e9 : headerName "Content-Type: application/http+jalop" = "Content-Type" := by decide
  have e10 : headerName "Transfer-Encoding: binary" = "Transfer-Encoding" := by decide
  cases c
  · have e11 : headerName ("JAL-Message: " ++ AUDIT ++ "-record") = "JAL-Message" := by decide
    have ha : AUDIT = AUDIT := rfl
    simp only [getJALRecordHeaders, RecordType.str, if_pos ha, if_true, List.map_append, List.map_cons,
      List.map_nil, e1, e2, e3, e4, e5, e8, e9, e10, e11, List.cons_append,
      List.nil_append]
  · have e11 : headerName ("JAL-Message: " ++ JOURNAL ++ "-record") = "JAL-Message" := by
      decide
    have ha : ¬ JOURNAL = AUDIT := by decide
    have hb : ¬ AUDIT = JOURNAL := by decide
    have hc : JOURNAL = JOURNAL := rfl
    simp only [getJALRecordHeaders, RecordType.str, if_neg ha, if_neg hb, if_pos hc, if_true,
      List.map_append, List.map_cons, List.map_nil, e1, e2, e3, e4, e6, e9, e10, e11,
      List.cons_append, List.nil_append, List.append_nil]
  · have e11 : headerName ("JAL-Message: " ++ LOG ++ "-record") = "JAL-Message" := by decide
    have ha : ¬ LOG = AUDIT := by decide
    have hb : ¬ AUDIT = LOG := by decide
    have hc : ¬ JOURNAL = LOG := by decide
    simp only [getJALRecordHeaders, RecordType.str, if_neg ha, if_neg hb, if_neg hc,
      List.map_append, List.map_cons, List.map_nil, e1, e2, e3, e4, e7, e9, e10, e11,
      List.cons_append, List.nil_append, List.append_nil]

/-- C3: for every record type, stored session id and record metadata the
header list of `getJALRecordHeaders` contains the session-id header with the
stored id, the record id, the two metadata lengths, the payload-length header
named after the record type, and `JAL-Message: <type>-record`; it contains
`JAL-Audit-Format: xml` exactly when the record type is audit. -/
theorem getJALRecordHeaders_contents (st : State) (c : RecordType)
    (jalId sysLen appLen payloadLen : String) :
    "JAL-Session-Id: " ++ getSessionIdByRecordType st c
      ∈ getJALRecordHeaders st c jalId sysLen appLen payloadLen ∧
    "JAL-Id: " ++ jalId ∈ getJALRecordHeaders st c jalId sysLen appLen payloadLen ∧
    "JAL-System-Metadata-Length: " ++ sysLen
      ∈ getJALRecordHeaders st c jalId sysLen appLen payloadLen ∧
    "JAL-Application-Metadata-Length: " ++ appLen
      ∈ getJALRecordHeaders st c jalId sysLen appLen payloadLen ∧
    (match c with
      | .audit => "JAL-Audit-Length: "
      | .journal => "JAL-Journal-Length: "
      | .log => "JAL-Log-Length: ") ++ payloadLen
      ∈ getJALRecordHeaders st c jalId sysLen appLen payloadLen ∧
    "JAL-Message: " ++ c.str ++ "-record"
      ∈ getJALRecordHeaders st c jalId sysLen appLen payloadLen ∧
    ("JAL-Audit-Format: xml" ∈ getJALRecordHeaders st c jalId sysLen appLen payloadLen
      ↔ c = RecordType.audit) := by
  refine ⟨?_, ?_, ?_, ?_, ?_, ?_, ?_⟩
  · simp [getJALRecordHeaders]
  · simp [getJALRecordHeaders]
  · simp [getJALRecordHeaders]
  · simp [getJALRecordHeaders]
  · have ha : ¬ AUDIT = JOURNAL := by decide
    have hb : ¬ AUDIT = LOG := by decide
    have hc : ¬ JOURNAL = LOG := by decide
    cases c
    · simp [getJALRecordHeaders, RecordType.str]
    · simp [getJALRecordHeaders, RecordType.str, ha]
    · simp [getJALRecordHeaders, RecordType.str, hb, hc]
  · simp [getJALRecordHeaders]
  · constructor
    · intro hmem
      have hn := List.mem_map_of_mem headerName hmem
      rw [getJALRecordHeaders_names st c jalId sysLen appLen payloadLen] at hn
      cases c
      · rfl
      · revert hn; decide
      · revert hn; decide
    · intro hc
      subst hc
      have ha : AUDIT = AUDIT := rfl
      simp [getJALRecordHeaders, RecordType.str]

/-- C3, the scenario of the specification: audit, session id `S1`, record
`R1`, lengths 10, 5 and 100. -/
theorem getJALRecordHeaders_contents_witness :
    "JAL-Session-Id: S1"
      ∈ getJALRecordHeaders (setSessionIdByRecordType "S1" .audit State.init) .audit
          "R1" "10" "5" "100" ∧
    "JAL-Id: R1"
      ∈ getJALRecordHeaders (setSessionIdByRecordType "S1" .audit State.init) .audit
          "R1" "10" "5" "100" ∧
    "JAL-Audit-Length: 100"
      ∈ getJALRecordHeaders (setSessionIdByRecordType "S1" .audit State.init) .audit
          "R1" "10" "5" "100" ∧
    "JAL-Message: audit-record"
      ∈ getJALRecordHeaders (setSessionIdByRecordType "S1" .audit State.init) .audit
          "R1" "10" "5" "100" ∧
    "JAL-Audit-Format: xml"
      ∈ getJALRecordHeaders (setSessionIdByRecordType "S1" .audit State.init) .audit
          "R1" "10" "5" "100" := by
  have h := getJALRecordHeaders_contents (setSessionIdByRecordType "S1" .audit State.init)
    .audit "R1" "10" "5" "100"
  exact ⟨h.1, h.2.1, h.2.2.2.2.1, h.2.2.2.2.2.1, h.2.2.2.2.2.2.mpr rfl⟩

/-- C9: for every record type `getInitializeHeaders` gives ten headers whose
names are, in order, Content-Type, Transfer-Encoding, JAL-Message, JAL-Mode,
JAL-Publisher-Id, JAL-Accept-Digest, JAL-Accept-XML-Compression,
JAL-Record-Type, JAL-Version, JAL-Accept-Configure-Digest-Challenge; the third
is `JAL-Message: initialize`, the eighth is `JAL-Record-Type: <type>`, no
header is named JAL-Session-Id, and with the eighth header removed the list
is the same for any two record types.  The function reads no global, so the
result is the same in every state of the session store. -/
theorem getInitializeHeaders_contents (c d : RecordType) :
    (getInitializeHeaders c).map headerName
      = ["Content-Type", "Transfer-Encoding", "JAL-Message", "JAL-Mode", "JAL-Publisher-Id",
         "JAL-Accept-Digest", "JAL-Accept-XML-Compression", "JAL-Record-Type", "JAL-Version",
         "JAL-Accept-Configure-Digest-Challenge"] ∧
    (getInitializeHeaders c).length = 10 ∧
    (getInitializeHeaders c)[2]? = some "JAL-Message: initialize" ∧
    (getInitializeHeaders c)[7]? = some ("JAL-Record-Type: " ++ c.str) ∧
    "JAL-Session-Id" ∉ (getInitializeHeaders c).map headerName ∧
    (getInitializeHeaders c).eraseIdx 7 = (getInitializeHeaders d).eraseIdx 7 := by
  cases c <;> cases d <;> decide

/-! ## The session store is only written by `setSessionIdByRecordType` -/

theorem performHttpPost_sessionId (env : Env) (hs : List String) (b : Bool) (c : RecordType)
    (f : String) (st : State) (d : RecordType) :
    getSessionIdByRecordType (performHttpPost env hs b c f st).2 d
      = getSessionIdByRecordType st d := by
  unfold performHttpPost
  dsimp only
  split
  · cases d <;> rfl
  · split
    · cases d <;> rfl
    · cases d <;> rfl

theorem processJALRecordResponse_sessionId (env : Env) (c : RecordType) (jalId : String)
    (st : State) (d : RecordType) :
    getSessionIdByRecordType (processJALRecordResponse env c jalId st).2 d
      = getSessionIdByRecordType st d := by
  unfold processJALRecordResponse
  split
  · exact performHttpPost_sessionId _ _ _ _ _ _ _
  · rfl

theorem sendJalRecords_sessionId (env : Env) (c : RecordType) (st : State) (d : RecordType) :
    getSessionIdByRecordType (sendJalRecords env c st).2 d = getSessionIdByRecordType st d := by
  have h1 := performHttpPost_sessionId env
    (getJALRecordHeaders st c fixedJalId "3083" "1179" "1040") true c "good_audit_input.txt" st d
  unfold sendJalRecords
  dsimp only
  split
  · next st1 heq => rw [heq] at h1; exact h1
  · next st1 heq =>
    rw [heq] at h1
    rw [processJALRecordResponse_sessionId]
    exact h1

theorem sendAll_sessionId (env : Env) (cs : List RecordType) (st : State) (d : RecordType) :
    getSessionIdByRecordType (sendAll env cs st) d = getSessionIdByRecordType st d := by
  induction cs generalizing st with
  | nil => rfl
  | cons c cs ih =>
    rw [sendAll, ih, sendJalRecords_sessionId]

theorem getSessionId_set_same (s : String) (c : RecordType) (st : State) :
    getSessionIdByRecordType (setSessionIdByRecordType s c st) c = s := by
  cases c <;> rfl

theorem getSessionId_set_other (s : String) (c d : RecordType) (st : State) (h : c ≠ d) :
    getSessionIdByRecordType (setSessionIdByRecordType s c st) d
      = getSessionIdByRecordType st d := by
  cases c <;> cases d <;> first | rfl | exact absurd rfl h

/-! ## Requests that reach the transport -/

theorem headerName_sessionId (x : String) :
    headerName ("JAL-Session-Id: " ++ x) = "JAL-Session-Id" := by
  rw [headerName_append _ _ (by decide)]; decide

theorem headerName_jalId (x : String) : headerName ("JAL-Id: " ++ x) = "JAL-Id" := by
  rw [headerName_append _ _ (by decide)]; decide

theorem url_injective (c d : RecordType)
    (h : "http://localhost:8080/" ++ c.str = "http://localhost:8080/" ++ d.str) : c = d := by
  cases c <;> cases d <;> first | rfl | (revert h; decide)

theorem headerName_sysLength (x : String) :
    headerName ("JAL-System-Metadata-Length: " ++ x) = "JAL-System-Metadata-Length" := by
  rw [headerName_append _ _ (by decide)]; decide

theorem headerName_appLength (x : String) :
    headerName ("JAL-Application-Metadata-Length: " ++ x)
      = "JAL-Application-Metadata-Length" := by
  rw [headerName_append _ _ (by decide)]; decide

theorem headerName_auditLength (x : String) :
    headerName ("JAL-Audit-Length: " ++ x) = "JAL-Audit-Length" := by
  rw [headerName_append _ _ (by decide)]; decide

theorem headerName_journalLength (x : String) :
    headerName ("JAL-Journal-Length: " ++ x) = "JAL-Journal-Length" := by
  rw [headerName_append _ _ (by decide)]; decide

theorem headerName_logLength (x : String) :
    headerName ("JAL-Log-Length: " ++ x) = "JAL-Log-Length" := by
  rw [headerName_append _ _ (by decide)]; decide

theorem headerName_message (x y : String) :
    headerName ("JAL-Message: " ++ x ++ y) = "JAL-Message" := by
  rw [String.append_assoc, headerName_append _ _ (by decide)]; decide

theorem getJALRecordHeaders_sessionHeader (st : State) (c : RecordType)
    (jalId sysLen appLen payloadLen : String) :
    (getJALRecordHeaders st c jalId sysLen appLen payloadLen).filter
        (fun h => decide (headerName h = "JAL-Session-Id"))
      = ["JAL-Session-Id: " ++ getSessionIdByRecordType st c] := by
  have e1 : headerName "Content-Type: application/http+jalop" = "Content-Type" := by decide
  have e2 : headerName "Transfer-Encoding: binary" = "Transfer-Encoding" := by decide
  have e3 : headerName "JAL-Audit-Format: xml" = "JAL-Audit-Format" := by decide
  have ha : ¬ JOURNAL = AUDIT := by decide
  have hb : ¬ AUDIT = JOURNAL := by decide
  have hc : ¬ LOG = AUDIT := by decide
  have hd : ¬ AUDIT = LOG := by decide
  have he : ¬ JOURNAL = LOG := by decide
  cases c
  · simp [getJALRecordHeaders, RecordType.str, List.filter, e1, e2, e3, headerName_sessionId,
      headerName_jalId, headerName_sysLength, headerName_appLength, headerName_auditLength,
      headerName_message]
  · simp [getJALRecordHeaders, RecordType.str, List.filter, e1, e2, ha, hb, headerName_sessionId,
      headerName_jalId, headerName_sysLength, headerName_appLength, headerName_journalLength,
      headerName_message]
  · simp [getJALRecordHeaders, RecordType.str, List.filter, e1, e2, hc, hd, he,
      headerName_sessionId, headerName_jalId, headerName_sysLength, headerName_appLength,
      headerName_logLength, headerName_message]

theorem getDigestResponseHeaders_sessionHeader (st : State) (jalId : String) (c : RecordType) :
    (getDigestResponseHeaders st jalId c).filter
        (fun h => decide (headerName h = "JAL-Session-Id"))
      = ["JAL-Session-Id: " ++ getSessionIdByRecordType st c] := by
  have e1 : headerName "Content-Type: application/http+jalop" = "Content-Type" := by decide
  have e2 : headerName "Transfer-Encoding: binary" = "Transfer-Encoding" := by decide
  have e3 : headerName "JAL-Message: digest-response" = "JAL-Message" := by decide
  have e4 : headerName "JAL-Digest-Status: confirmed" = "JAL-Digest-Status" := by decide
  simp [getDigestResponseHeaders, List.filter, e1, e2, e3, e4, headerName_sessionId,
    headerName_jalId]

theorem performHttpPost_sent (env : Env) (hs : List String) (b : Bool) (c : RecordType)
    (f : String) (st : State) :
    (performHttpPost env hs b c f st).2.sent = st.sent ∨
    (performHttpPost env hs b c f st).2.sent
      = st.sent ++ [{ url := "http://localhost:8080/" ++ c.str, headers := hs,
                      sendBinaryData := b, filename := f }] := by
  unfold performHttpPost
  dsimp only
  split
  · exact Or.inl rfl
  · split
    · exact Or.inl rfl
    · exact Or.inr rfl

theorem performHttpPost_sent_header_only (env : Env) (hs : List String) (c : RecordType)
    (f : String) (st : State) :
    (performHttpPost env hs false c f st).2.sent
      = st.sent ++ [{ url := "http://localhost:8080/" ++ c.str, headers := hs,
                      sendBinaryData := false, filename := f }] := by
  simp [performHttpPost]

theorem performHttpPost_sent_file_ok (env : Env) (hs : List String) (c : RecordType)
    (f : String) (st : State) (h1 : env.fopenOk st.calls f = true)
    (h2 : env.fstatOk st.calls f = true) :
    (performHttpPost env hs true c f st).2.sent
      = st.sent ++ [{ url := "http://localhost:8080/" ++ c.str, headers := hs,
                      sendBinaryData := true, filename := f }] := by
  simp [performHttpPost, h1, h2]

theorem getDigestResponseHeaders_congr (st st1 : State) (jalId : String) (c : RecordType)
    (h : getSessionIdByRecordType st1 c = getSessionIdByRecordType st c) :
    getDigestResponseHeaders st1 jalId c = getDigestResponseHeaders st jalId c := by
  simp [getDigestResponseHeaders, h]

theorem getJALRecordHeaders_congr (st st1 : State) (c : RecordType)
    (jalId sysLen appLen payloadLen : String)
    (h : getSessionIdByRecordType st1 c = getSessionIdByRecordType st c) :
    getJALRecordHeaders st1 c jalId sysLen appLen payloadLen
      = getJALRecordHeaders st c jalId sysLen appLen payloadLen := by
  simp [getJALRecordHeaders, h]

theorem processJALRecordResponse_sent (env : Env) (c : RecordType) (jalId : String)
    (st : State) :
    (processJALRecordResponse env c jalId st).2.sent = st.sent ∨
    (processJALRecordResponse env c jalId st).2.sent
      = st.sent ++ [{ url := "http://localhost:8080/" ++ c.str,
                      headers := getDigestResponseHeaders st jalId c,
                      sendBinaryData := false, filename := "" }] := by
  unfold processJALRecordResponse
  split
  · exact Or.inr (performHttpPost_sent_header_only _ _ _ _ _)
  · exact Or.inl rfl

/-- Every request `sendJalRecords` hands to the transport goes to the URL of
its record type and carries exactly one session-id header, holding the id
that was stored when the call began. -/
theorem sendJalRecords_sent (env : Env) (c : RecordType) (st : State) :
    ∃ new, (sendJalRecords env c st).2.sent = st.sent ++ new ∧
      ∀ req ∈ new, req.url = "http://localhost:8080/" ++ c.str ∧
        req.headers.filter (fun h => decide (headerName h = "JAL-Session-Id"))
          = ["JAL-Session-Id: " ++ getSessionIdByRecordType st c] := by
  have hid := performHttpPost_sessionId env
    (getJALRecordHeaders st c fixedJalId "3083" "1179" "1040") true c "good_audit_input.txt" st c
  have hs1 := performHttpPost_sent env
    (getJALRecordHeaders st c fixedJalId "3083" "1179" "1040") true c "good_audit_input.txt" st
  have hrec : ∀ l : List Request,
      (l = [] ∨ l = [{ url := "http://localhost:8080/" ++ c.str,
                       headers := getJALRecordHeaders st c fixedJalId "3083" "1179" "1040",
                       sendBinaryData := true, filename := "good_audit_input.txt" }]) →
      ∀ req ∈ l, req.url = "http://localhost:8080/" ++ c.str ∧
        req.headers.filter (fun h => decide (headerName h = "JAL-Session-Id"))
          = ["JAL-Session-Id: " ++ getSessionIdByRecordType st c] := by
    intro l hl req hreq
    rcases hl with hl | hl
    · subst hl; simp at hreq
    · subst hl
      simp only [List.mem_singleton] at hreq
      subst hreq
      exact ⟨rfl, getJALRecordHeaders_sessionHeader _ _ _ _ _ _⟩
  have hfirst : ∃ l, (performHttpPost env
        (getJALRecordHeaders st c fixedJalId "3083" "1179" "1040") true c
        "good_audit_input.txt" st).2.sent = st.sent ++ l ∧
      (l = [] ∨ l = [{ url := "http://localhost:8080/" ++ c.str,
                       headers := getJALRecordHeaders st c fixedJalId "3083" "1179" "1040",
                       sendBinaryData := true, filename := "good_audit_input.txt" }]) := by
    rcases hs1 with h | h
    · exact ⟨[], by simpa using h, Or.inl rfl⟩
    · exact ⟨_, h, Or.inr rfl⟩
  obtain ⟨l, hl, hlcases⟩ := hfirst
  unfold sendJalRecords
  dsimp only
  split
  · next st1 heq =>
    rw [heq] at hl
    exact ⟨l, hl, hrec l hlcases⟩
  · next st1 heq =>
    rw [heq] at hl hid
    dsimp only at hl hid
    rcases processJALRecordResponse_sent env c fixedJalId st1 with h | h
    · exact ⟨l, by rw [h, hl], hrec l hlcases⟩
    · refine ⟨l ++ [{ url := "http://localhost:8080/" ++ c.str,
                      headers := getDigestResponseHeaders st1 fixedJalId c,
                      sendBinaryData := false, filename := "" }], ?_, ?_⟩
      · rw [h, hl, List.append_assoc]
      · intro req hreq
        rcases List.mem_append.mp hreq with hm | hm
        · exact hrec l hlcases req hm
        · simp only [List.mem_singleton] at hm
          subst hm
          refine ⟨rfl, ?_⟩
          rw [getDigestResponseHeaders_sessionHeader, hid]

theorem sendAll_sent (env : Env) (cs : List RecordType) (st : State) :
    ∃ new, (sendAll env cs st).sent = st.sent ++ new ∧
      ∀ req ∈ new, ∀ d : RecordType, req.url = "http://localhost:8080/" ++ d.str →
        req.headers.filter (fun h => decide (headerName h = "JAL-Session-Id"))
          = ["JAL-Session-Id: " ++ getSessionIdByRecordType st d] := by
  induction cs generalizing st with
  | nil => exact ⟨[], by simp [sendAll], by simp⟩
  | cons c cs ih =>
    obtain ⟨new1, h1, p1⟩ := sendJalRecords_sent env c st
    obtain ⟨new2, h2, p2⟩ := ih (sendJalRecords env c st).2
    refine ⟨new1 ++ new2, ?_, ?_⟩
    · rw [sendAll, h2, h1, List.append_assoc]
    · intro req hreq d hd
      rcases List.mem_append.mp hreq with hm | hm
      · obtain ⟨hu, hf⟩ := p1 req hm
        have hcd : c = d := url_injective c d (hu ▸ hd)
        rw [hf, hcd]
      · rw [p2 req hm d hd, sendJalRecords_sessionId]

/-! ## Record transfer without a session id (C4) -/

/-- C4 as stated fails: at program start no record type has a session id,
yet `getJALRecordHeaders` for the audit channel returns a header list, whose
session-id header has an empty value, and `sendJalRecords` hands a request with
that list to the transport. -/
theorem transfer_without_session_counterexample :
    getSessionIdByRecordType State.init .audit = "" ∧
    getJALRecordHeaders State.init .audit "R1" "10" "5" "100"
      = ["JAL-Session-Id: ", "Content-Type: application/http+jalop",
         "Transfer-Encoding: binary", "JAL-Audit-Format: xml", "JAL-Id: R1",
         "JAL-System-Metadata-Length: 10", "JAL-Application-Metadata-Length: 5",
         "JAL-Audit-Length: 100", "JAL-Message: audit-record"] ∧
    (sendJalRecords quietEnv .audit State.init).2.sent.map (fun r => r.headers.head?)
      = [some "JAL-Session-Id: "] := by
  decide

/-- C4, as amended: for a record type whose stored session id is empty the
record transfer is not refused.  `getJALRecordHeaders` returns the usual
header list, beginning with a session-id header of empty value;
`sendJalRecords` posts that list whenever the payload file can be opened and
measured; and the stored session id of every record type is unchanged. -/
theorem transfer_without_session_proceeds (env : Env) (st : State) (c : RecordType)
    (jalId sysLen appLen payloadLen : String)
    (h : getSessionIdByRecordType st c = "")
    (hopen : env.fopenOk st.calls "good_audit_input.txt" = true)
    (hstat : env.fstatOk st.calls "good_audit_input.txt" = true) :
    (getJALRecordHeaders st c jalId sysLen appLen payloadLen).head? = some "JAL-Session-Id: " ∧
    (getJALRecordHeaders st c jalId sysLen appLen payloadLen).filter
        (fun h => decide (headerName h = "JAL-Session-Id")) = ["JAL-Session-Id: "] ∧
    (∃ rest, (sendJalRecords env c st).2.sent
      = st.sent ++
          { url := "http://localhost:8080/" ++ c.str,
            headers := getJALRecordHeaders st c fixedJalId "3083" "1179" "1040",
            sendBinaryData := true, filename := "good_audit_input.txt" } :: rest) ∧
    (∀ d, getSessionIdByRecordType (sendJalRecords env c st).2 d
      = getSessionIdByRecordType st d) := by
  refine ⟨?_, ?_, ?_, fun d => sendJalRecords_sessionId env c st d⟩
  · simp [getJALRecordHeaders, h]
  · have e : ("JAL-Session-Id: " : String) = "JAL-Session-Id: " ++ "" := by decide
    rw [getJALRecordHeaders_sessionHeader, h, ← e]
  · have hp := performHttpPost_sent_file_ok env
      (getJALRecordHeaders st c fixedJalId "3083" "1179" "1040") c "good_audit_input.txt" st
      hopen hstat
    unfold sendJalRecords
    dsimp only
    split
    · next st1 heq =>
      rw [heq] at hp
      exact ⟨[], hp⟩
    · next st1 heq =>
      rw [heq] at hp
      dsimp only at hp
      rcases processJALRecordResponse_sent env c fixedJalId st1 with h2 | h2
      · exact ⟨[], by rw [h2, hp]⟩
      · exact ⟨_, by rw [h2, hp, List.append_assoc]; rfl⟩

theorem transfer_without_session_proceeds_witness :
    (getJALRecordHeaders State.init .log "R1" "10" "5" "100").head? = some "JAL-Session-Id: " ∧
    (∀ d, getSessionIdByRecordType (sendJalRecords quietEnv .log State.init).2 d
      = getSessionIdByRecordType State.init d) := by
  have h := transfer_without_session_proceeds quietEnv State.init .log "R1" "10" "5" "100"
    (by decide) (by decide) (by decide)
  exact ⟨h.1, h.2.2.2⟩

/-! ## The session id is used unchanged (C5) -/

/-- C5: after `setSessionIdByRecordType(s, c)` the getter returns `s` for `c`,
and it still does after any run of record transfers on any record types.  Each
record-transfer and digest-response header list built for `c` in the state
after such a run, for any record metadata, carries exactly one session-id
header, `JAL-Session-Id: s`; and so does every request for `c` that the run
itself handed to the transport. -/
theorem session_id_used_unchanged (env : Env) (st : State) (c : RecordType) (s : String)
    (cs : List RecordType) (jalId sysLen appLen payloadLen : String) :
    getSessionIdByRecordType (setSessionIdByRecordType s c st) c = s ∧
    getSessionIdByRecordType (sendAll env cs (setSessionIdByRecordType s c st)) c = s ∧
    (getJALRecordHeaders (sendAll env cs (setSessionIdByRecordType s c st)) c
        jalId sysLen appLen payloadLen).filter
        (fun h => decide (headerName h = "JAL-Session-Id")) = ["JAL-Session-Id: " ++ s] ∧
    (getDigestResponseHeaders (sendAll env cs (setSessionIdByRecordType s c st)) jalId c).filter
        (fun h => decide (headerName h = "JAL-Session-Id")) = ["JAL-Session-Id: " ++ s] ∧
    (∀ req ∈ (sendAll env cs (setSessionIdByRecordType s c st)).sent.drop
          (setSessionIdByRecordType s c st).sent.length,
        req.url = "http://localhost:8080/" ++ c.str →
        req.headers.filter (fun h => decide (headerName h = "JAL-Session-Id"))
          = ["JAL-Session-Id: " ++ s]) := by
  have h1 := getSessionId_set_same s c st
  have h2 : getSessionIdByRecordType (sendAll env cs (setSessionIdByRecordType s c st)) c = s := by
    rw [sendAll_sessionId, h1]
  refine ⟨h1, h2, ?_, ?_, ?_⟩
  · rw [getJALRecordHeaders_sessionHeader, h2]
  · rw [getDigestResponseHeaders_sessionHeader, h2]
  · obtain ⟨new, hnew, pnew⟩ := sendAll_sent env cs (setSessionIdByRecordType s c st)
    intro req hreq hurl
    rw [hnew, List.drop_left] at hreq
    rw [pnew req hreq c hurl, h1]

/-! ## Isolation of the session store per record type (C10) -/

/-- C10: for two distinct record types `c` and `d`, storing a session id for
`c` leaves the id stored for `d` as it was, and so do processing a record
response for `c` and a whole record transfer for `c`.  The header builders
only read the store (they return a header list and nothing else), and what
they build for `d` does not depend on the id stored for `c`. -/
theorem session_store_isolated (env : Env) (st : State) (c d : RecordType) (s : String)
    (jalId sysLen appLen payloadLen : String) (hcd : c ≠ d) :
    getSessionIdByRecordType (setSessionIdByRecordType s c st) d
      = getSessionIdByRecordType st d ∧
    getSessionIdByRecordType (processJALRecordResponse env c jalId st).2 d
      = getSessionIdByRecordType st d ∧
    getSessionIdByRecordType (sendJalRecords env c st).2 d = getSessionIdByRecordType st d ∧
    getJALRecordHeaders (setSessionIdByRecordType s c st) d jalId sysLen appLen payloadLen
      = getJALRecordHeaders st d jalId sysLen appLen payloadLen ∧
    getDigestResponseHeaders (setSessionIdByRecordType s c st) jalId d
      = getDigestResponseHeaders st jalId d ∧
    getCloseSessionHeaders (setSessionIdByRecordType s c st) d
      = getCloseSessionHeaders st d := by
  have h := getSessionId_set_other s c d st hcd
  refine ⟨h, processJALRecordResponse_sessionId env c jalId st d,
    sendJalRecords_sessionId env c st d, ?_, ?_, ?_⟩
  · exact getJALRecordHeaders_congr _ _ _ _ _ _ _ h
  · exact getDigestResponseHeaders_congr _ _ _ _ h
  · simp [getCloseSessionHeaders, h]

theorem session_store_isolated_witness :
    getSessionIdByRecordType
        (setSessionIdByRecordType "S2" .journal (setSessionIdByRecordType "S1" .audit State.init))
        .audit = "S1" := by
  have h := session_store_isolated quietEnv (setSessionIdByRecordType "S1" .audit State.init)
    .journal .audit "S2" "R1" "10" "5" "100" (by decide)
  rw [h.1]
  rfl

/-! ## The response-header map across exchanges (C8) -/

theorem header_callback_lookup (line : String) (m : HeaderMap) (k : String) :
    header_callback line m k
      = match header_callback line HeaderMap.empty k with
        | some v => some v
        | none => m k := by
  simp only [header_callback]
  rcases split line with _ | ⟨a, _ | ⟨b, _ | ⟨c, t⟩⟩⟩
  · simp [HeaderMap.empty]
  · simp [HeaderMap.empty]
  · by_cases hk : k = trim a
    · simp [HeaderMap.assign, hk]
    · simp [HeaderMap.assign, hk, HeaderMap.empty]
  · simp [HeaderMap.empty]

theorem foldl_header_callback_present (lines : List String) (m : HeaderMap) (k : String)
    (h : m k ≠ none) :
    lines.foldl (fun m line => header_callback line m) m k ≠ none := by
  induction lines generalizing m with
  | nil => exact h
  | cons line rest ih =>
    rw [List.foldl_cons]
    apply ih
    rw [header_callback_lookup]
    split
    · simp
    · exact h

theorem foldl_header_callback_same (lines : List String) (m : HeaderMap) (k : String)
    (h : ∀ line ∈ lines, header_callback line HeaderMap.empty k = none) :
    lines.foldl (fun m line => header_callback line m) m k = m k := by
  induction lines generalizing m with
  | nil => rfl
  | cons line rest ih =>
    rw [List.foldl_cons, ih _ (fun l hl => h l (List.mem_cons_of_mem _ hl)),
      header_callback_lookup, h line (List.mem_cons_self _ _)]

/-- C8 as stated fails: the first exchange (the journal initialize) delivers
`JAL-Session-Id: S1`; the response of the second exchange (the audit
initialize) has no line that sets that key; yet the map consulted after the
second exchange still gives `S1` for it, and `main` stores `S1` as the audit
session id. -/
theorem headerMap_stale_counterexample :
    (∀ line ∈ (staleEnv.perform 1
          { url := "http://localhost:8080/" ++ RecordType.audit.str,
            headers := getInitializeHeaders .audit, sendBinaryData := false,
            filename := "" }).headerLines,
        header_callback line HeaderMap.empty "JAL-Session-Id" = none) ∧
    (performHttpPost staleEnv (getInitializeHeaders .audit) false .audit ""
        (performHttpPost staleEnv (getInitializeHeaders .journal) false .journal ""
          State.init).2).2.headerMap "JAL-Session-Id" = some "S1" ∧
    (mainInit staleEnv State.init).map (fun st => getSessionIdByRecordType st .audit)
      = some "S1" := by
  decide

theorem performHttpPost_headerMap_present (env : Env) (hs : List String) (b : Bool)
    (c : RecordType) (f : String) (st : State) (k : String) (hk : st.headerMap k ≠ none) :
    (performHttpPost env hs b c f st).2.headerMap k ≠ none := by
  unfold performHttpPost
  dsimp only
  split
  · exact hk
  · split
    · exact hk
    · exact foldl_header_callback_present _ _ _ hk

theorem performHttpPost_headerMap_same (env : Env) (hs : List String) (b : Bool)
    (c : RecordType) (f : String) (st : State) (k : String)
    (hnew : ∀ line ∈ (env.perform st.calls
          { url := "http://localhost:8080/" ++ c.str, headers := hs,
            sendBinaryData := b, filename := f }).headerLines,
        header_callback line HeaderMap.empty k = none) :
    (performHttpPost env hs b c f st).2.headerMap k = st.headerMap k := by
  unfold performHttpPost
  dsimp only
  split
  · rfl
  · split
    · rfl
    · exact foldl_header_callback_same _ _ _ hnew

/-- C8, as amended: the response-header map is one map that no exchange
clears.  An exchange only adds or overwrites the entries of the header lines
it receives.  For every exchange, a key `k` that was present before
`performHttpPost` is still present after it, whatever the response holds; and
a key `k2` that no received line sets has afterwards the value it had before,
whichever record type the earlier exchange belonged to. -/
theorem headerMap_kept_across_exchanges (env : Env) (hs : List String) (b : Bool)
    (c : RecordType) (f : String) (st : State) (k k2 : String)
    (hk : st.headerMap k ≠ none)
    (hnew : ∀ line ∈ (env.perform st.calls
          { url := "http://localhost:8080/" ++ c.str, headers := hs,
            sendBinaryData := b, filename := f }).headerLines,
        header_callback line HeaderMap.empty k2 = none) :
    (performHttpPost env hs b c f st).2.headerMap k ≠ none ∧
    (performHttpPost env hs b c f st).2.headerMap k2 = st.headerMap k2 :=
  ⟨performHttpPost_headerMap_present env hs b c f st k hk,
   performHttpPost_headerMap_same env hs b c f st k2 hnew⟩

theorem headerMap_kept_across_exchanges_witness :
    (performHttpPost staleEnv (getInitializeHeaders .audit) false .audit ""
        (performHttpPost staleEnv (getInitializeHeaders .journal) false .journal ""
          State.init).2).2.headerMap "JAL-Message" ≠ none ∧
    (performHttpPost staleEnv (getInitializeHeaders .audit) false .audit ""
        (performHttpPost staleEnv (getInitializeHeaders .journal) false .journal ""
          State.init).2).2.headerMap "JAL-Session-Id"
      = (performHttpPost staleEnv (getInitializeHeaders .journal) false .journal ""
          State.init).2.headerMap "JAL-Session-Id" :=
  headerMap_kept_across_exchanges staleEnv (getInitializeHeaders .audit) false .audit ""
    (performHttpPost staleEnv (getInitializeHeaders .journal) false .journal "" State.init).2
    "JAL-Message" "JAL-Session-Id" (by decide) (by decide)

/-! ## Processing the response to a record (C7) -/

/-- What `processInitializeResponse` does with a `JAL-Message` other than
`initialize-ack`: it returns `false`, sends nothing and leaves the stored
session ids as they were. -/
theorem processInitializeResponse_nack (env : Env) (c : RecordType) (st : State) (v : String)
    (hv : st.headerMap "JAL-Message" = some v) (hne : v ≠ "initialize-ack") :
    (processInitializeResponse env c st).1 = some false ∧
    (processInitializeResponse env c st).2.sent = st.sent ∧
    ∀ d, getSessionIdByRecordType (processInitializeResponse env c st).2 d
      = getSessionIdByRecordType st d := by
  have e : processInitializeResponse env c st = (some false, st) := by
    simp [processInitializeResponse, HeaderMap.found, HeaderMap.index, hv, hne]
  rw [e]
  exact ⟨rfl, rfl, fun _ => rfl⟩

/-- C6 fails in `main`: with a receiver that answers every initialize with
`JAL-Message: initialize-nack`, the map holds `initialize-nack` when the
initialize phase ends, and the first pass of the loop still posts a record and
a digest response on each of the three channels (nine requests in all).  When
the nack response also carries `JAL-Session-Id: S9`, that id is stored for the
audit channel.  `processInitializeResponse`, which would have refused the
channel in the same state, is never called. -/
theorem main_ignores_initialize_nack :
    (mainInit nackEnv State.init).map (fun st => st.headerMap "JAL-Message")
      = some (some "initialize-nack") ∧
    (main nackEnv 1).map (fun st => st.sent.map fun r =>
        (r.url, r.headers.filter fun h => decide (headerName h = "JAL-Message")))
      = some
          [("http://localhost:8080/journal", ["JAL-Message: initialize"]),
           ("http://localhost:8080/audit", ["JAL-Message: initialize"]),
           ("http://localhost:8080/log", ["JAL-Message: initialize"]),
           ("http://localhost:8080/journal", ["JAL-Message: journal-record"]),
           ("http://localhost:8080/journal", ["JAL-Message: digest-response"]),
           ("http://localhost:8080/audit", ["JAL-Message: audit-record"]),
           ("http://localhost:8080/audit", ["JAL-Message: digest-response"]),
           ("http://localhost:8080/log", ["JAL-Message: log-record"]),
           ("http://localhost:8080/log", ["JAL-Message: digest-response"])] ∧
    (mainInit nackIdEnv State.init).map (fun st => getSessionIdByRecordType st .audit)
      = some "S9" ∧
    (mainInit nackEnv State.init).map (fun st =>
        ((processInitializeResponse nackEnv .audit st).1,
         (processInitializeResponse nackEnv .audit st).2.sent.length - st.sent.length))
      = some (some false, 0) := by
  decide

end Jalop
